import Mathlib

/-! Shallow embedding of the bundle-assembly core of the `fhir_test_utils`
repository: the resource factory and graph assembler `FHIRBundleGenerator`
(src/bundle_generator.py) and the re-identification transform of
`MADiEExporter` (src/madie_exporter.py).

Resources in the source are Python dicts.  The embedding records exactly the
fields that the verified properties observe: `resourceType`, `id`,
`meta.profile`, the three patient-reference fields `subject` / `beneficiary` /
`patient`, `identifier`, `name`, and (for MeasureReport) `group[0].population`
and `evaluatedResource`.  All remaining fields of the source resources
(status strings, codings, dosage, extensions, telecom, addresses, …) are
fixed constants or verbatim pass-throughs that no verified property observes;
they are omitted here, and source parameters that only populate omitted
fields are likewise dropped.  Python's nondeterministic `uuid.uuid4()` id
minting is modelled by passing the freshly minted ids to each operation as
explicit arguments. -/

namespace FhirTestUtils

/-- A FHIR local reference: the dict `{"reference": "<resourceType>/<id>"}`. -/
structure Reference where
  reference : String
deriving DecidableEq, Repr

/-- An identifier element, as used on Patient and Practitioner resources
(`{"system": …, "value": …}`; the nested `type` coding of the Patient
identifier is a constant and is omitted). -/
structure Identifier where
  system : String
  value : String
deriving DecidableEq, Repr

/-- A human-name element `{"family": …, "given": […]}` (the constant
`use` key is omitted). -/
structure HumanName where
  family : String
  given : List String
deriving DecidableEq, Repr

/-- One element of a MeasureReport `group[0].population` list, built by
`add_measure_report`: `{"id": f"{pop_key}_1", "code": {"coding": [{system,
code, display}]}, "count": count}`.  `popId` is the source dict's `"id"`
key; the constant coding `system` is omitted. -/
structure Population where
  popId : String
  code : String
  display : String
  count : Int
deriving DecidableEq, Repr

/-- A FHIR resource (a nested key-value document in the source), restricted
to the fields observed by the verified properties.  `Option` marks fields
whose key may be absent from the dict (`none` = key absent). -/
structure Resource where
  resourceType : String
  id : String
  profile : List String := []
  subject : Option Reference := none
  beneficiary : Option Reference := none
  patient : Option Reference := none
  identifier : Option (List Identifier) := none
  name : Option (List HumanName) := none
  population : List Population := []
  evaluatedResource : List Reference := []
deriving DecidableEq, Repr

/-- The `request` descriptor of a bundle entry: `{"method": "PUT", "url":
f"{resource_type}/{resource_id}"}`. -/
structure Request where
  method : String
  url : String
deriving DecidableEq, Repr

/-- One bundle entry: `{"fullUrl": …, "resource": …, "request": …}`. -/
structure Entry where
  fullUrl : String
  resource : Resource
  request : Request
deriving DecidableEq, Repr

/-- The bundle owned by a `FHIRBundleGenerator`.  The constant top-level keys
`"resourceType": "Bundle"` and `"type": "transaction"` are omitted. -/
structure Bundle where
  id : String
  entry : List Entry
deriving DecidableEq, Repr

/-- The state of a `FHIRBundleGenerator` instance: `test_case_name`,
`patient_id` and the growing `bundle`. -/
structure Generator where
  testCaseName : String
  patientId : String
  bundle : Bundle
deriving DecidableEq, Repr

/-- `FHIRBundleGenerator.MADIE_BASE_URL`. -/
def MADIE_BASE_URL : String := "https://madie.cms.gov"

/-- `QICORE_BASE` from src/qicore_profiles.py. -/
def qicoreBase : String := "http://hl7.org/fhir/us/qicore/StructureDefinition"

/-- `QICORE_PROFILES["Patient"]`. -/
def qicorePatient : String := qicoreBase ++ "/qicore-patient"

/-- `QICORE_PROFILES["Practitioner"]`. -/
def qicorePractitioner : String := qicoreBase ++ "/qicore-practitioner"

/-- `QICORE_PROFILES["ObservationLab"]`. -/
def qicoreObservationLab : String := qicoreBase ++ "/qicore-observation-lab"

/-- `QICORE_PROFILES["ObservationClinicalResult"]`. -/
def qicoreObservationClinicalResult : String :=
  qicoreBase ++ "/qicore-observation-clinical-result"

/-- `QICORE_PROFILES["SimpleObservation"]`. -/
def qicoreSimpleObservation : String := qicoreBase ++ "/qicore-simple-observation"

/-- `QICORE_PROFILES["MedicationAdministration"]`. -/
def qicoreMedicationAdministration : String :=
  qicoreBase ++ "/qicore-medicationadministration"

/-- `QICORE_PROFILES["Device"]`. -/
def qicoreDevice : String := qicoreBase ++ "/qicore-device"

/-- `USCORE_PROFILES["Specimen"]`. -/
def uscoreSpecimen : String :=
  "http://hl7.org/fhir/us/core/StructureDefinition/us-core-specimen"

/-- `CQFM_PROFILES["MeasureReport"]`. -/
def cqfmMeasureReport : String :=
  "http://hl7.org/fhir/us/cqfmeasures/StructureDefinition/test-case-cqfm"

/-- `CODE_SYSTEMS["NPI"]` from src/code_systems.py. -/
def npiSystem : String := "http://hl7.org/fhir/sid/us-npi"

/-- `FHIRBundleGenerator._add_entry(resource, resource_id)`.  Every resource
built by this repository carries an `"id"` key, so the source's
`resource.get("id", self._generate_id())` fallback collapses to `r.id` when
the `resource_id` argument is absent. -/
def addEntry (g : Generator) (r : Resource) (resourceId : Option String) :
    Generator × String :=
  let rid := resourceId.getD r.id
  let e : Entry :=
    { fullUrl := MADIE_BASE_URL ++ "/" ++ r.resourceType ++ "/" ++ rid
      resource := r
      request := { method := "PUT", url := r.resourceType ++ "/" ++ rid } }
  ({ g with bundle := { g.bundle with entry := g.bundle.entry ++ [e] } }, rid)

/-- The general-practitioner Practitioner auxiliary resource built inside
`FHIRBundleGenerator.add_patient`, with the fixed id `"gp-001"`. -/
def gpPractitioner : Resource :=
  { resourceType := "Practitioner"
    id := "gp-001"
    profile := [qicorePractitioner]
    identifier := some [{ system := npiSystem, value := "1234567893" }]
    name := some [{ family := "GeneralPractitioner", given := ["Dr"] }] }

/-- `FHIRBundleGenerator.add_patient(given_name, family_name, …)`.  The
parameters `gender`, `birth_date`, the race/ethnicity codes and
`deceased_datetime` only populate omitted fields and are dropped.  The
auxiliary Practitioner entry (fixed id `"gp-001"`) is appended first, then
the Patient entry under the generator's `patient_id`; the patient id is
returned. -/
def addPatient (g : Generator) (givenName familyName : Option String) :
    Generator × String :=
  let gname := givenName.getD g.testCaseName
  let fname := familyName.getD "TestPatient"
  let g1 := (addEntry g gpPractitioner (some "gp-001")).1
  let patient : Resource :=
    { resourceType := "Patient"
      id := g.patientId
      profile := [qicorePatient]
      identifier := some [{ system := MADIE_BASE_URL ++ "/", value := g.patientId }]
      name := some [{ family := fname, given := [gname] }] }
  let g2 := (addEntry g1 patient (some g.patientId)).1
  (g2, g.patientId)

/-- The profile-variant selection branch shared by
`FHIRBundleGenerator.add_observation` and
`FHIRBundleGenerator.add_observation_data_absent`. -/
def observationProfileFor (category : String) : String :=
  if category = "laboratory" then qicoreObservationLab
  else if category = "vital-signs" then qicoreObservationClinicalResult
  else qicoreSimpleObservation

/-- `FHIRBundleGenerator.add_observation(encounter_id, category, code, value,
unit, effective_datetime)`.  The freshly minted `observation_id` and
`specimen_id` are explicit arguments; `encounter_id`, `code`, `value`,
`unit` and `effective_datetime` only populate omitted fields and are
dropped.  The auxiliary Specimen entry is appended first, then the
Observation entry. -/
def addObservation (g : Generator) (observationId specimenId category : String) :
    Generator × String :=
  let specimen : Resource :=
    { resourceType := "Specimen"
      id := specimenId
      profile := [uscoreSpecimen]
      subject := some { reference := "Patient/" ++ g.patientId } }
  let g1 := (addEntry g specimen (some specimenId)).1
  let observation : Resource :=
    { resourceType := "Observation"
      id := observationId
      profile := [observationProfileFor category]
      subject := some { reference := "Patient/" ++ g.patientId } }
  let g2 := (addEntry g1 observation (some observationId)).1
  (g2, observationId)

/-- `FHIRBundleGenerator.add_observation_data_absent(encounter_id, category,
code, effective_datetime)`.  It appends a single Observation entry with the
same category-driven profile selection as `add_observation`; `encounter_id`,
`code` and `effective_datetime` only populate omitted fields and are
dropped. -/
def addObservationDataAbsent (g : Generator) (observationId category : String) :
    Generator × String :=
  let observation : Resource :=
    { resourceType := "Observation"
      id := observationId
      profile := [observationProfileFor category]
      subject := some { reference := "Patient/" ++ g.patientId } }
  let g1 := (addEntry g observation (some observationId)).1
  (g1, observationId)

/-- `FHIRBundleGenerator.add_medication_administration(encounter_id,
effective_start, effective_end, medication_code)`.  The freshly minted ids
are explicit arguments; the remaining parameters only populate omitted
fields and are dropped.  The auxiliary Practitioner and Device entries are
appended first, then the MedicationAdministration entry. -/
def addMedicationAdministration
    (g : Generator) (medAdminId practitionerId deviceId : String) :
    Generator × String :=
  let practitioner : Resource :=
    { resourceType := "Practitioner"
      id := practitionerId
      profile := [qicorePractitioner]
      identifier := some [{ system := npiSystem, value := "1234567893" }]
      name := some [{ family := "Nurse", given := ["Admin"] }] }
  let g1 := (addEntry g practitioner (some practitionerId)).1
  let device : Resource :=
    { resourceType := "Device"
      id := deviceId
      profile := [qicoreDevice]
      patient := some { reference := "Patient/" ++ g.patientId } }
  let g2 := (addEntry g1 device (some deviceId)).1
  let medicationAdmin : Resource :=
    { resourceType := "MedicationAdministration"
      id := medAdminId
      profile := [qicoreMedicationAdministration]
      subject := some { reference := "Patient/" ++ g.patientId } }
  let g3 := (addEntry g2 medicationAdmin (some medAdminId)).1
  (g3, medAdminId)

/-- The `population_code_map` dict of
`FHIRBundleGenerator.add_measure_report`: the closed eight-name enumeration
of population-bucket keys, mapping each key to its `(code, display)` pair;
any other key is absent from the dict (`none`). -/
def populationCodeMap : String → Option (String × String)
  | "initialPopulation" => some ("initial-population", "Initial Population")
  | "denominator" => some ("denominator", "Denominator")
  | "numerator" => some ("numerator", "Numerator")
  | "denominatorExclusion" => some ("denominator-exclusion", "Denominator Exclusion")
  | "denominatorException" => some ("denominator-exception", "Denominator Exception")
  | "numeratorExclusion" => some ("numerator-exclusion", "Numerator Exclusion")
  | "measurePopulation" => some ("measure-population", "Measure Population")
  | "measurePopulationExclusion" =>
      some ("measure-population-exclusion", "Measure Population Exclusion")
  | _ => none

/-- The population-building loop of `FHIRBundleGenerator.add_measure_report`:
iterate over `expected_populations.items()` (a Python dict, modelled as an
association list in insertion order with pairwise-distinct keys) and keep one
`{id, code, count}` element per key found in `population_code_map`, silently
skipping the others. -/
def buildPopulations (expected : List (String × Int)) : List Population :=
  expected.filterMap (fun kc =>
    (populationCodeMap kc.1).map (fun cd =>
      { popId := kc.1 ++ "_1", code := cd.1, display := cd.2, count := kc.2 }))

/-- `FHIRBundleGenerator.add_measure_report(description, measure_url,
measurement_period_start, measurement_period_end, expected_populations)`.
The freshly minted `measure_report_id` is an explicit argument;
`description`, `measure_url`, the period bounds and the contained Parameters
resource only populate omitted fields and are dropped.  The
`evaluatedResource` list is computed from the entries present in the bundle
at the moment of the call, before the MeasureReport entry itself is
appended. -/
def addMeasureReport (g : Generator) (measureReportId : String)
    (expectedPopulations : Option (List (String × Int))) : Generator × String :=
  let expected := expectedPopulations.getD [("initialPopulation", 1)]
  let evaluatedResources : List Reference := g.bundle.entry.map
    (fun e => { reference := e.resource.resourceType ++ "/" ++ e.resource.id })
  let populations := buildPopulations expected
  let measureReport : Resource :=
    { resourceType := "MeasureReport"
      id := measureReportId
      profile := [cqfmMeasureReport]
      population := populations
      evaluatedResource := evaluatedResources }
  addEntry g measureReport (some measureReportId)

/-- One iteration of the entry loop in
`MADiEExporter._update_patient_references`.  For a Patient resource the id,
fullUrl, request url, identifier values and name are rewritten; the
`elif` chain means a Patient resource's own `subject` key is never touched,
while the `beneficiary` and `patient` checks are separate `if` statements
that run for every resource, Patient included.  For every other resource the
`subject` key, when present, is rewritten unconditionally.  The source guards
the `patient` rewrite with `isinstance(resource["patient"], dict)`; in this
embedding a present `patient` field is always a reference dict, so the guard
is always true. -/
def updateEntryPatientRefs (patientId series title : String) (e : Entry) : Entry :=
  let r := e.resource
  if r.resourceType = "Patient" then
    let r1 : Resource :=
      { r with
        id := patientId
        identifier := r.identifier.map
          (List.map (fun idn => { idn with value := patientId }))
        name := r.name.map (fun _ => [{ family := series, given := [title] }]) }
    let r2 : Resource :=
      { r1 with
        beneficiary := r1.beneficiary.map
          (fun _ => { reference := "Patient/" ++ patientId })
        patient := r1.patient.map
          (fun _ => { reference := "Patient/" ++ patientId }) }
    { e with
      resource := r2
      fullUrl := "https://madie.cms.gov/Patient/" ++ patientId
      request := { e.request with url := "Patient/" ++ patientId } }
  else
    { e with resource :=
      { r with
        subject := r.subject.map (fun _ => { reference := "Patient/" ++ patientId })
        beneficiary := r.beneficiary.map
          (fun _ => { reference := "Patient/" ++ patientId })
        patient := r.patient.map
          (fun _ => { reference := "Patient/" ++ patientId }) } }

/-- `MADiEExporter._update_patient_references(gen, patient_id, series,
title)`: the entry list of `gen.bundle` after the in-place loop.  The source
contains no `raise` and this transform is total: it never signals an error,
whatever the bundle contains. -/
def updatePatientReferences (b : Bundle) (patientId series title : String) : Bundle :=
  { b with entry := b.entry.map (updateEntryPatientRefs patientId series title) }

/-- State of `source_gen.bundle` after `MADiEExporter.export` processes one
test case.  In the source the assignment `gen.bundle = source_gen.bundle`
binds `gen.bundle` to the very same object as the source generator's bundle
(no copy of any kind is taken), so the in-place field updates performed by
`_update_patient_references` and the entry-list append performed by
`add_measure_report` are visible through `source_gen.bundle` as well.  This
definition is the final state of that shared object. -/
def sourceBundleAfterExport (sourceBundle : Bundle)
    (patientId series title measureReportId : String)
    (expectedPopulations : Option (List (String × Int))) : Bundle :=
  let gen : Generator :=
    { testCaseName := series ++ "_" ++ title
      patientId := patientId
      bundle := sourceBundle }
  let gen1 : Generator :=
    { gen with bundle := updatePatientReferences gen.bundle patientId series title }
  ((addMeasureReport gen1 measureReportId expectedPopulations).1).bundle

/-- One Resource-Factory call, with the ids minted for it by `uuid.uuid4()`
made explicit. -/
inductive Call where
  | patient (givenName familyName : Option String)
  | observation (observationId specimenId category : String)
  | observationDataAbsent (observationId category : String)
  | medicationAdministration (medAdminId practitionerId deviceId : String)
  | measureReport (measureReportId : String)
      (expectedPopulations : Option (List (String × Int)))
deriving DecidableEq, Repr

/-- Dispatch one Resource-Factory call against a generator. -/
def applyCall (g : Generator) : Call → Generator
  | Call.patient gn fn => (addPatient g gn fn).1
  | Call.observation oid sid cat => (addObservation g oid sid cat).1
  | Call.observationDataAbsent oid cat => (addObservationDataAbsent g oid cat).1
  | Call.medicationAdministration m p d => (addMedicationAdministration g m p d).1
  | Call.measureReport mid pops => (addMeasureReport g mid pops).1

/-- Run a sequence of Resource-Factory calls against a generator. -/
def runCalls (g : Generator) : List Call → Generator
  | [] => g
  | c :: cs => runCalls (applyCall g c) cs

/-- The resource ids a call appends to the bundle, in append order.
`add_patient` always mints the fixed auxiliary id `"gp-001"` and reuses the
generator's `patient_id`; every other modelled operation mints only fresh
`uuid.uuid4()` ids. -/
def mintedIds (patientId : String) : Call → List String
  | Call.patient _ _ => ["gp-001", patientId]
  | Call.observation oid sid _ => [sid, oid]
  | Call.observationDataAbsent oid _ => [oid]
  | Call.medicationAdministration m p d => [p, d, m]
  | Call.measureReport mid _ => [mid]

/-- The resource ids of a bundle's entries, in entry order. -/
def bundleIds (b : Bundle) : List String :=
  b.entry.map (fun e => e.resource.id)

/-- A concrete generator over an empty bundle, used to instantiate theorems
with hypotheses at concrete inputs. -/
def sampleGenerator : Generator :=
  { testCaseName := "T", patientId := "p1", bundle := { id := "b0", entry := [] } }

/-- A concrete resource used to instantiate the append postcondition. -/
def sampleEncounter : Resource :=
  { resourceType := "Encounter", id := "e1"
    subject := some { reference := "Patient/p1" } }

theorem string_append_cancel_left {a b c : String} (h : a ++ b = a ++ c) : b = c := by
  have h2 := congrArg String.data h
  simp only [String.data_append] at h2
  exact String.ext (List.append_cancel_left h2)

theorem string_append_cancel_right {a b c : String} (h : a ++ c = b ++ c) : a = b := by
  have h2 := congrArg String.data h
  simp only [String.data_append] at h2
  exact String.ext (List.append_cancel_right h2)

/-- C7: every call to the entry-append operation increases the bundle's entry
list length by exactly one, leaves all previously appended entries unchanged
at their original positions, and the appended entry has fullUrl equal to the
base URL followed by the resource's type and id and request equal to a PUT on
the resource's type and id.  The resource_id argument, when the factory
operations supply it, always equals the resource's own id. -/
theorem addEntry_append_postcondition (g : Generator) (r : Resource)
    (resourceId : Option String)
    (h : resourceId = none ∨ resourceId = some r.id) :
    ((addEntry g r resourceId).1.bundle.entry.length = g.bundle.entry.length + 1) ∧
    (∀ i, i < g.bundle.entry.length →
      (addEntry g r resourceId).1.bundle.entry[i]? = g.bundle.entry[i]?) ∧
    ((addEntry g r resourceId).1.bundle.entry.getLast? = some
      { fullUrl := MADIE_BASE_URL ++ "/" ++ r.resourceType ++ "/" ++ r.id
        resource := r
        request := { method := "PUT", url := r.resourceType ++ "/" ++ r.id } }) ∧
    ((addEntry g r resourceId).2 = r.id) := by
  have hid : resourceId.getD r.id = r.id := by
    rcases h with h | h <;> simp [h]
  refine ⟨by simp [addEntry], ?_, ?_, by simp [addEntry, hid]⟩
  · intro i hi
    simp only [addEntry]
    exact List.getElem?_append_left hi
  · simp [addEntry, hid, List.getLast?_concat]

theorem addEntry_append_postcondition_witness :
    ((none : Option String) = none ∨ (none : Option String) = some sampleEncounter.id) ∧
    (((addEntry sampleGenerator sampleEncounter none).1.bundle.entry.length
        = sampleGenerator.bundle.entry.length + 1) ∧
     (∀ i, i < sampleGenerator.bundle.entry.length →
       (addEntry sampleGenerator sampleEncounter none).1.bundle.entry[i]?
         = sampleGenerator.bundle.entry[i]?) ∧
     ((addEntry sampleGenerator sampleEncounter none).1.bundle.entry.getLast? = some
       { fullUrl := MADIE_BASE_URL ++ "/" ++ sampleEncounter.resourceType ++ "/"
            ++ sampleEncounter.id
         resource := sampleEncounter
         request := { method := "PUT"
                      url := sampleEncounter.resourceType ++ "/" ++ sampleEncounter.id } }) ∧
     ((addEntry sampleGenerator sampleEncounter none).2 = sampleEncounter.id)) :=
  ⟨Or.inl rfl,
   addEntry_append_postcondition sampleGenerator sampleEncounter none (Or.inl rfl)⟩

/-- C9: for the auxiliary-bearing factory operations — add_patient (auxiliary
Practitioner), add_observation (auxiliary Specimen) and
add_medication_administration (auxiliary Practitioner and Device) — the
auxiliary entries are appended strictly before the primary entry, exactly one
primary entry plus one entry per auxiliary resource are appended in total,
and the pre-existing entries are left in place. -/
theorem factory_appends_auxiliary_entries_first (g : Generator)
    (gn fn : Option String) (oid sid cat m p d : String) :
    ((addPatient g gn fn).1.bundle.entry.map (fun e => e.resource.resourceType)
       = g.bundle.entry.map (fun e => e.resource.resourceType)
           ++ ["Practitioner", "Patient"]) ∧
    ((addPatient g gn fn).1.bundle.entry.take g.bundle.entry.length
       = g.bundle.entry) ∧
    ((addObservation g oid sid cat).1.bundle.entry.map
        (fun e => e.resource.resourceType)
       = g.bundle.entry.map (fun e => e.resource.resourceType)
           ++ ["Specimen", "Observation"]) ∧
    ((addObservation g oid sid cat).1.bundle.entry.take g.bundle.entry.length
       = g.bundle.entry) ∧
    ((addMedicationAdministration g m p d).1.bundle.entry.map
        (fun e => e.resource.resourceType)
       = g.bundle.entry.map (fun e => e.resource.resourceType)
           ++ ["Practitioner", "Device", "MedicationAdministration"]) ∧
    ((addMedicationAdministration g m p d).1.bundle.entry.take g.bundle.entry.length
       = g.bundle.entry) := by
  refine ⟨?_, ?_, ?_, ?_, ?_, ?_⟩ <;>
    simp [addPatient, addObservation, addMedicationAdministration, addEntry,
      gpPractitioner, List.append_assoc, List.take_append]

/-- C6: for every call to add_observation and add_observation_data_absent, the
category argument selects the attached profile deterministically — laboratory
gives the ObservationLab profile URL, vital-signs the ObservationClinicalResult
profile URL, and anything else the SimpleObservation profile URL — always as a
one-element meta.profile list. -/
theorem observation_profile_variant_selection (g : Generator) (oid sid cat : String) :
    ((addObservation g oid sid cat).1.bundle.entry.getLast?.map
        (fun e => e.resource.profile)
      = some [if cat = "laboratory" then qicoreObservationLab
              else if cat = "vital-signs" then qicoreObservationClinicalResult
              else qicoreSimpleObservation]) ∧
    ((addObservationDataAbsent g oid cat).1.bundle.entry.getLast?.map
        (fun e => e.resource.profile)
      = some [if cat = "laboratory" then qicoreObservationLab
              else if cat = "vital-signs" then qicoreObservationClinicalResult
              else qicoreSimpleObservation]) := by
  constructor <;>
    simp [addObservation, addObservationDataAbsent, addEntry,
      observationProfileFor, List.getLast?_concat]

/-- C10: the re-identification transform rewrites the subject, beneficiary and
patient fields of every non-Patient entry to the new Patient identity
unconditionally, never testing what the field pointed at before, so a field
that referenced some other resource also ends up at the new Patient. -/
theorem rekey_rewrites_references_unconditionally
    (b : Bundle) (pid series title : String) (i : Nat) (hi : i < b.entry.length)
    (hnp : (b.entry[i]).resource.resourceType ≠ "Patient") :
    ((updatePatientReferences b pid series title).entry[i]?.map
        (fun e => e.resource.subject)
      = some ((b.entry[i]).resource.subject.map
          (fun _ => { reference := "Patient/" ++ pid }))) ∧
    ((updatePatientReferences b pid series title).entry[i]?.map
        (fun e => e.resource.beneficiary)
      = some ((b.entry[i]).resource.beneficiary.map
          (fun _ => { reference := "Patient/" ++ pid }))) ∧
    ((updatePatientReferences b pid series title).entry[i]?.map
        (fun e => e.resource.patient)
      = some ((b.entry[i]).resource.patient.map
          (fun _ => { reference := "Patient/" ++ pid }))) := by
  refine ⟨?_, ?_, ?_⟩ <;>
    simp [updatePatientReferences, List.getElem?_map,
      List.getElem?_eq_getElem hi, updateEntryPatientRefs, hnp]

/-- A bundle holding a single Device entry whose patient field references a
different patient than the graph subject, and a single Encounter entry whose
subject field references a Group rather than a Patient. -/
def strayRefBundle : Bundle :=
  { id := "b0"
    entry :=
      [{ fullUrl := MADIE_BASE_URL ++ "/Encounter/e1"
         resource := { resourceType := "Encounter", id := "e1"
                       subject := some { reference := "Group/g9" } }
         request := { method := "PUT", url := "Encounter/e1" } },
       { fullUrl := MADIE_BASE_URL ++ "/Device/d1"
         resource := { resourceType := "Device", id := "d1"
                       patient := some { reference := "Patient/other-patient" } }
         request := { method := "PUT", url := "Device/d1" } }] }

theorem rekey_rewrites_references_unconditionally_witness :
    (0 < strayRefBundle.entry.length) ∧
    (strayRefBundle.entry[0]?.map (fun e => e.resource.resourceType)
       = some ("Encounter")) ∧
    (strayRefBundle.entry[0]?.map (fun e => e.resource.subject)
       = some (some { reference := "Group/g9" })) ∧
    ((updatePatientReferences strayRefBundle ("p1") ("S") ("T")).entry[0]?.map
        (fun e => e.resource.subject)
      = some (some { reference := "Patient/p1" })) := by
  have hmain := rekey_rewrites_references_unconditionally strayRefBundle
    ("p1") ("S") ("T") 0 (by decide) (by decide)
  refine ⟨by decide, by decide, by decide, ?_⟩
  have h1 := hmain.1
  simpa using h1

/-- A bundle containing zero Patient entries: one Encounter whose subject
references the (absent) old patient. -/
def noPatientBundle : Bundle :=
  { id := "b0"
    entry :=
      [{ fullUrl := MADIE_BASE_URL ++ "/Encounter/e1"
         resource := { resourceType := "Encounter", id := "e1"
                       subject := some { reference := "Patient/p0" } }
         request := { method := "PUT", url := "Encounter/e1" } }] }

/-- C8 counterexample: handed a Graph with zero Patient entries, the
re-identification transform does not surface any error — the source contains
no check and no raise — and instead completes silently, returning a bundle
that still has zero Patient entries (with the stray subject reference
rewritten to the new identity). -/
theorem rekey_without_patient_completes_silently :
    (noPatientBundle.entry.countP
        (fun e => e.resource.resourceType == "Patient") = 0) ∧
    (updatePatientReferences noPatientBundle ("p1") ("S") ("T")
      = { id := "b0"
          entry :=
            [{ fullUrl := MADIE_BASE_URL ++ "/Encounter/e1"
               resource := { resourceType := "Encounter", id := "e1"
                             subject := some { reference := "Patient/p1" } }
               request := { method := "PUT", url := "Encounter/e1" } }] }) ∧
    ((updatePatientReferences noPatientBundle ("p1") ("S") ("T")).entry.countP
        (fun e => e.resource.resourceType == "Patient") = 0) := by
  refine ⟨by decide, by decide, by decide⟩

/-- C8 amended: re-identifying a Graph with zero Patient entries is not
detected as an invariant violation: the transform completes without error
as a total function, preserving the entry count, producing no Patient entry,
and still rewriting every subject reference field to the new identity. -/
theorem rekey_without_patient_is_silent
    (b : Bundle) (pid series title : String)
    (h : ∀ e ∈ b.entry, e.resource.resourceType ≠ "Patient") :
    ((updatePatientReferences b pid series title).entry.length = b.entry.length) ∧
    (∀ e ∈ (updatePatientReferences b pid series title).entry,
        e.resource.resourceType ≠ "Patient") ∧
    (∀ e ∈ (updatePatientReferences b pid series title).entry,
        e.resource.subject = none ∨
        e.resource.subject = some { reference := "Patient/" ++ pid }) := by
  refine ⟨by simp [updatePatientReferences], ?_, ?_⟩
  · intro e he
    simp only [updatePatientReferences, List.mem_map] at he
    obtain ⟨e0, he0, rfl⟩ := he
    simp [updateEntryPatientRefs, h e0 he0]
  · intro e he
    simp only [updatePatientReferences, List.mem_map] at he
    obtain ⟨e0, he0, rfl⟩ := he
    simp only [updateEntryPatientRefs, if_neg (h e0 he0)]
    cases e0.resource.subject <;> simp

theorem rekey_without_patient_is_silent_witness :
    (∀ e ∈ noPatientBundle.entry, e.resource.resourceType ≠ "Patient") ∧
    (((updatePatientReferences noPatientBundle ("p1") ("S") ("T")).entry.length
        = noPatientBundle.entry.length) ∧
     (∀ e ∈ (updatePatientReferences noPatientBundle ("p1") ("S") ("T")).entry,
         e.resource.resourceType ≠ "Patient") ∧
     (∀ e ∈ (updatePatientReferences noPatientBundle ("p1") ("S") ("T")).entry,
         e.resource.subject = none ∨
         e.resource.subject = some { reference := "Patient/" ++ "p1" })) :=
  ⟨by decide, rekey_without_patient_is_silent noPatientBundle ("p1") ("S") ("T")
      (by decide)⟩

/-- A finished source graph: one Patient entry (id p0) and one Encounter entry
whose subject references that Patient. -/
def aliasedSourceBundle : Bundle :=
  { id := "b0"
    entry :=
      [{ fullUrl := MADIE_BASE_URL ++ "/Patient/p0"
         resource := { resourceType := "Patient", id := "p0"
                       profile := [qicorePatient]
                       identifier := some [{ system := MADIE_BASE_URL ++ "/"
                                             value := "p0" }]
                       name := some [{ family := "TestPatient", given := ["Orig"] }] }
         request := { method := "PUT", url := "Patient/p0" } },
       { fullUrl := MADIE_BASE_URL ++ "/Encounter/e1"
         resource := { resourceType := "Encounter", id := "e1"
                       subject := some { reference := "Patient/p0" } }
         request := { method := "PUT", url := "Encounter/e1" } }] }

/-- C1: the claim fails on the code.  MADiEExporter.export takes no copy of
the source graph: the assignment of the source generator's bundle to the
fresh generator aliases the very same object, so the in-place rewrite and
the MeasureReport append mutate the source graph.  At this concrete input the
source bundle after export differs from the bundle before export (its Patient
id became p1 and a MeasureReport entry was appended), so serializing it after
the call cannot be byte-identical to serializing it before. -/
theorem export_mutates_source_bundle :
    sourceBundleAfterExport aliasedSourceBundle ("p1") ("S") ("T") ("m1") none
      ≠ aliasedSourceBundle := by
  decide

/-- A Graph with exactly one Patient entry (id p0) that itself carries a
subject reference field pointing at Patient/p0. -/
def patientSelfRefBundle : Bundle :=
  { id := "b0"
    entry :=
      [{ fullUrl := MADIE_BASE_URL ++ "/Patient/p0"
         resource := { resourceType := "Patient", id := "p0"
                       subject := some { reference := "Patient/p0" } }
         request := { method := "PUT", url := "Patient/p0" } }] }

/-- C2 counterexample: a Graph whose single Patient entry (id p0) itself
carries a subject field "Patient/p0".  Rekeying to the fresh id p1 leaves
that subject field containing "Patient/p0": the source's elif chain skips
the subject rewrite for Patient resources, so the claim as stated — no
entry's subject field contains the old identity — fails at this input. -/
theorem rekey_leaves_patient_own_subject_stale :
    (patientSelfRefBundle.entry.countP
        (fun e => e.resource.resourceType == "Patient") = 1) ∧
    ((updatePatientReferences patientSelfRefBundle ("p1") ("S") ("T")).entry.map
        (fun e => e.resource.subject) = [some { reference := "Patient/p0" }]) ∧
    (("p1" : String) ≠ "p0") := by
  refine ⟨by decide, by decide, by decide⟩

/-- C2 amended: for every Graph whose Patient entries carry no subject field,
and every fresh target id distinct from the old id P, rekeying yields a Graph
in which no entry's subject, beneficiary or patient reference field references
Patient/P, every Patient entry's id is exactly the new id, and the Patient
entry's fullUrl and request url are recomputed from the new id; if the source
graph has a Patient entry, so does the result. -/
theorem rekey_referential_closure
    (b : Bundle) (P P2 series title : String)
    (hsubj : ∀ e ∈ b.entry, e.resource.resourceType = "Patient" →
        e.resource.subject = none)
    (hfresh : P2 ≠ P) :
    (∀ e ∈ (updatePatientReferences b P2 series title).entry,
        e.resource.subject ≠ some { reference := "Patient/" ++ P } ∧
        e.resource.beneficiary ≠ some { reference := "Patient/" ++ P } ∧
        e.resource.patient ≠ some { reference := "Patient/" ++ P }) ∧
    (∀ e ∈ (updatePatientReferences b P2 series title).entry,
        e.resource.resourceType = "Patient" →
          e.resource.id = P2 ∧
          e.fullUrl = "https://madie.cms.gov/Patient/" ++ P2 ∧
          e.request.url = "Patient/" ++ P2) ∧
    ((∃ e ∈ b.entry, e.resource.resourceType = "Patient") →
      ∃ e ∈ (updatePatientReferences b P2 series title).entry,
        e.resource.resourceType = "Patient" ∧ e.resource.id = P2) := by
  have hne : ("Patient/" ++ P2 : String) ≠ "Patient/" ++ P := by
    intro hcontra
    exact hfresh (string_append_cancel_left hcontra)
  refine ⟨?_, ?_, ?_⟩
  · intro e he
    simp only [updatePatientReferences, List.mem_map] at he
    obtain ⟨e0, he0, rfl⟩ := he
    by_cases hp : e0.resource.resourceType = "Patient"
    · refine ⟨?_, ?_, ?_⟩ <;>
        simp only [updateEntryPatientRefs, if_pos hp]
      · simp [hsubj e0 he0 hp]
      · cases e0.resource.beneficiary <;> simp [hne]
      · cases e0.resource.patient <;> simp [hne]
    · refine ⟨?_, ?_, ?_⟩ <;>
        simp only [updateEntryPatientRefs, if_neg hp]
      · cases e0.resource.subject <;> simp [hne]
      · cases e0.resource.beneficiary <;> simp [hne]
      · cases e0.resource.patient <;> simp [hne]
  · intro e he
    simp only [updatePatientReferences, List.mem_map] at he
    obtain ⟨e0, he0, rfl⟩ := he
    by_cases hp : e0.resource.resourceType = "Patient"
    · intro _
      simp [updateEntryPatientRefs, if_pos hp]
    · intro habs
      simp only [updateEntryPatientRefs, if_neg hp] at habs
      exact absurd habs hp
  · rintro ⟨e0, he0, hp⟩
    refine ⟨updateEntryPatientRefs P2 series title e0, ?_, ?_, ?_⟩
    · simp only [updatePatientReferences, List.mem_map]
      exact ⟨e0, he0, rfl⟩
    · simp [updateEntryPatientRefs, hp]
    · simp [updateEntryPatientRefs, hp]

/-- A well-formed source graph for the referential-closure witness: one
Patient entry without a subject field and one Encounter entry whose subject
references the Patient. -/
def closureWitnessBundle : Bundle :=
  { id := "b0"
    entry :=
      [{ fullUrl := MADIE_BASE_URL ++ "/Patient/p0"
         resource := { resourceType := "Patient", id := "p0"
                       identifier := some [{ system := MADIE_BASE_URL ++ "/"
                                             value := "p0" }]
                       name := some [{ family := "TestPatient", given := ["Orig"] }] }
         request := { method := "PUT", url := "Patient/p0" } },
       { fullUrl := MADIE_BASE_URL ++ "/Encounter/e1"
         resource := { resourceType := "Encounter", id := "e1"
                       subject := some { reference := "Patient/p0" } }
         request := { method := "PUT", url := "Encounter/e1" } }] }

theorem rekey_referential_closure_witness :
    (∀ e ∈ closureWitnessBundle.entry, e.resource.resourceType = "Patient" →
        e.resource.subject = none) ∧
    (("p1" : String) ≠ "p0") ∧
    ((∀ e ∈ (updatePatientReferences closureWitnessBundle ("p1") ("S") ("T")).entry,
        e.resource.subject ≠ some { reference := "Patient/" ++ "p0" } ∧
        e.resource.beneficiary ≠ some { reference := "Patient/" ++ "p0" } ∧
        e.resource.patient ≠ some { reference := "Patient/" ++ "p0" }) ∧
    (∀ e ∈ (updatePatientReferences closureWitnessBundle ("p1") ("S") ("T")).entry,
        e.resource.resourceType = "Patient" →
          e.resource.id = "p1" ∧
          e.fullUrl = "https://madie.cms.gov/Patient/" ++ "p1" ∧
          e.request.url = "Patient/" ++ "p1") ∧
    ((∃ e ∈ closureWitnessBundle.entry, e.resource.resourceType = "Patient") →
      ∃ e ∈ (updatePatientReferences closureWitnessBundle ("p1") ("S") ("T")).entry,
        e.resource.resourceType = "Patient" ∧ e.resource.id = "p1")) :=
  ⟨by decide, by decide,
   rekey_referential_closure closureWitnessBundle ("p0") ("p1") ("S") ("T")
     (by decide) (by decide)⟩

theorem applyCall_patientId (g : Generator) (c : Call) :
    (applyCall g c).patientId = g.patientId := by
  cases c <;>
    simp [applyCall, addPatient, addObservation, addObservationDataAbsent,
      addMedicationAdministration, addMeasureReport, addEntry]

theorem bundleIds_applyCall (g : Generator) (c : Call) :
    bundleIds (applyCall g c).bundle
      = bundleIds g.bundle ++ mintedIds g.patientId c := by
  cases c <;>
    simp [applyCall, bundleIds, mintedIds, addPatient, addObservation,
      addObservationDataAbsent, addMedicationAdministration, addMeasureReport,
      addEntry, gpPractitioner]

theorem bundleIds_runCalls (g : Generator) (cs : List Call) :
    bundleIds (runCalls g cs).bundle
      = bundleIds g.bundle ++ cs.flatMap (mintedIds g.patientId) := by
  induction cs generalizing g with
  | nil => simp [runCalls]
  | cons c cs ih =>
      rw [runCalls, ih, bundleIds_applyCall, applyCall_patientId]
      simp [List.flatMap_cons, List.append_assoc]

/-- C3 amended: the resource ids across a Graph's entries are pairwise
distinct for every sequence of Resource-Factory calls in which no id is
minted twice — the appended ids are exactly the minted ids, in order.  All
ids except two are fresh uuid4 values, but add_patient always re-mints the
fixed auxiliary id gp-001 and the generator's fixed patient id, so any
sequence calling add_patient more than once mints those two ids twice and
produces duplicate ids (the original uniqueness claim fails there). -/
theorem factory_ids_distinct_when_minted_once
    (g : Generator) (cs : List Call)
    (h : (bundleIds g.bundle ++ cs.flatMap (mintedIds g.patientId)).Nodup) :
    (bundleIds (runCalls g cs).bundle).Nodup := by
  rw [bundleIds_runCalls]
  exact h

theorem factory_ids_distinct_when_minted_once_witness :
    ((bundleIds sampleGenerator.bundle
        ++ [Call.patient none none,
            Call.observation ("o1") ("s1") ("laboratory")].flatMap
             (mintedIds sampleGenerator.patientId)).Nodup) ∧
    ((bundleIds (runCalls sampleGenerator
        [Call.patient none none,
         Call.observation ("o1") ("s1") ("laboratory")]).bundle).Nodup) :=
  ⟨by decide,
   factory_ids_distinct_when_minted_once sampleGenerator
     [Call.patient none none, Call.observation ("o1") ("s1") ("laboratory")]
     (by decide)⟩

/-- C3 counterexample: a sequence that calls add_patient twice.  The second
call re-mints the fixed auxiliary id gp-001 and the generator's patient id,
so the resulting Graph's ids are not pairwise distinct. -/
theorem factory_ids_clash_on_second_add_patient :
    (bundleIds (runCalls sampleGenerator
        [Call.patient none none, Call.patient none none]).bundle
      = ["gp-001", "p1", "gp-001", "p1"]) ∧
    ¬ (bundleIds (runCalls sampleGenerator
        [Call.patient none none, Call.patient none none]).bundle).Nodup := by
  refine ⟨by decide, by decide⟩

/-- C4: when add_measure_report is invoked on a Graph with n entries, the
synthesized MeasureReport's evaluatedResource list contains exactly n
references — one per entry present in the Graph at the moment of synthesis,
of the form resourceType/id — and, the report's own id being freshly minted,
the list does not reference the MeasureReport itself; entries appended after
the call cannot appear since the list is computed from the entries present at
call time. -/
theorem measure_report_evaluated_resources_complete
    (g : Generator) (mrId : String) (pops : Option (List (String × Int)))
    (hfresh : ∀ e ∈ g.bundle.entry,
        e.resource.resourceType ++ "/" ++ e.resource.id ≠ "MeasureReport/" ++ mrId) :
    ((addMeasureReport g mrId pops).1.bundle.entry.length
       = g.bundle.entry.length + 1) ∧
    ((addMeasureReport g mrId pops).1.bundle.entry.getLast?.map
        (fun e => e.resource.evaluatedResource)
      = some (g.bundle.entry.map (fun e =>
          ({ reference := e.resource.resourceType ++ "/" ++ e.resource.id }
            : Reference)))) ∧
    ((g.bundle.entry.map (fun e =>
        ({ reference := e.resource.resourceType ++ "/" ++ e.resource.id }
          : Reference))).length = g.bundle.entry.length) ∧
    (({ reference := "MeasureReport/" ++ mrId } : Reference) ∉
        g.bundle.entry.map (fun e =>
          ({ reference := e.resource.resourceType ++ "/" ++ e.resource.id }
            : Reference))) := by
  refine ⟨by simp [addMeasureReport, addEntry], ?_, by simp, ?_⟩
  · simp [addMeasureReport, addEntry, List.getLast?_concat]
  · intro hmem
    simp only [List.mem_map] at hmem
    obtain ⟨e, he, heq⟩ := hmem
    have : e.resource.resourceType ++ "/" ++ e.resource.id
        = "MeasureReport/" ++ mrId := congrArg Reference.reference heq
    exact hfresh e he this

/-- A generator whose bundle already holds a Patient and an Encounter entry,
used to instantiate the MeasureReport theorems. -/
def reportWitnessGenerator : Generator :=
  { testCaseName := "T", patientId := "p0", bundle := closureWitnessBundle }

theorem measure_report_evaluated_resources_complete_witness :
    (∀ e ∈ reportWitnessGenerator.bundle.entry,
        e.resource.resourceType ++ "/" ++ e.resource.id ≠ "MeasureReport/" ++ "m1") ∧
    (((addMeasureReport reportWitnessGenerator ("m1") none).1.bundle.entry.length
        = reportWitnessGenerator.bundle.entry.length + 1) ∧
     ((addMeasureReport reportWitnessGenerator ("m1") none).1.bundle.entry.getLast?.map
         (fun e => e.resource.evaluatedResource)
       = some (reportWitnessGenerator.bundle.entry.map (fun e =>
           ({ reference := e.resource.resourceType ++ "/" ++ e.resource.id }
             : Reference)))) ∧
     ((reportWitnessGenerator.bundle.entry.map (fun e =>
         ({ reference := e.resource.resourceType ++ "/" ++ e.resource.id }
           : Reference))).length = reportWitnessGenerator.bundle.entry.length) ∧
     (({ reference := "MeasureReport/" ++ "m1" } : Reference) ∉
         reportWitnessGenerator.bundle.entry.map (fun e =>
           ({ reference := e.resource.resourceType ++ "/" ++ e.resource.id }
             : Reference)))) :=
  ⟨by decide,
   measure_report_evaluated_resources_complete reportWitnessGenerator ("m1") none
     (by decide)⟩

theorem buildPopulations_members (expected : List (String × Int)) :
    ∀ p ∈ buildPopulations expected, ∃ k c cd dp,
      (k, c) ∈ expected ∧ populationCodeMap k = some (cd, dp) ∧
      p = { popId := k ++ "_1", code := cd, display := dp, count := c } := by
  intro p hp
  simp only [buildPopulations, List.mem_filterMap] at hp
  obtain ⟨kc, hkc, hf⟩ := hp
  obtain ⟨cd2, hcd, rfl⟩ := Option.map_eq_some'.mp hf
  exact ⟨kc.1, kc.2, cd2.1, cd2.2, by simpa using hkc, by simpa using hcd, rfl⟩

theorem countP_buildPopulations_of_notMem (k : String) :
    ∀ expected : List (String × Int), k ∉ expected.map Prod.fst →
      (buildPopulations expected).countP (fun p => p.popId == k ++ "_1") = 0 := by
  intro expected
  induction expected with
  | nil => intro _; simp [buildPopulations]
  | cons kc rest ih =>
      intro h
      simp only [List.map_cons, List.mem_cons, not_or] at h
      obtain ⟨hk0, hrest⟩ := h
      have hne : kc.1 ++ "_1" ≠ k ++ "_1" := fun hh =>
        hk0 (string_append_cancel_right hh).symm
      cases hkc : populationCodeMap kc.1 with
      | none =>
          simpa [buildPopulations, List.filterMap_cons, hkc] using ih hrest
      | some cd2 =>
          have hrec := ih hrest
          simp only [buildPopulations, List.filterMap_cons, hkc, Option.map_some,
            List.countP_cons] at hrec ⊢
          simp [hrec, beq_iff_eq, hne]

theorem countP_buildPopulations_of_mem
    (k : String) (c : Int) (cd dp : String)
    (hk : populationCodeMap k = some (cd, dp)) :
    ∀ expected : List (String × Int), (expected.map Prod.fst).Nodup →
      (k, c) ∈ expected →
      (buildPopulations expected).countP (fun p => p.popId == k ++ "_1") = 1 := by
  intro expected
  induction expected with
  | nil => intro _ hmem; simp at hmem
  | cons kc rest ih =>
      intro hnd hmem
      simp only [List.map_cons, List.nodup_cons] at hnd
      obtain ⟨hk0, hndrest⟩ := hnd
      rcases List.mem_cons.mp hmem with heq | hmemrest
      · subst heq
        have hzero := countP_buildPopulations_of_notMem k rest (by simpa using hk0)
        simp [buildPopulations, List.filterMap_cons, hk, List.countP_cons] at hzero ⊢
        simpa [buildPopulations] using hzero
      · have hkk : k ∈ rest.map Prod.fst := List.mem_map.mpr ⟨(k, c), hmemrest, rfl⟩
        have hne2 : kc.1 ≠ k := fun hh => hk0 (hh ▸ hkk)
        have hne : kc.1 ++ "_1" ≠ k ++ "_1" := fun hh =>
          hne2 (string_append_cancel_right hh)
        have hrec := ih hndrest hmemrest
        cases hkc : populationCodeMap kc.1 with
        | none =>
            simpa [buildPopulations, List.filterMap_cons, hkc] using hrec
        | some cd2 =>
            simp only [buildPopulations, List.filterMap_cons, hkc, Option.map_some,
              List.countP_cons] at hrec ⊢
            simp [hrec, beq_iff_eq, hne]

theorem buildPopulations_no_unknown_keys (expected : List (String × Int))
    (k : String) (hk : populationCodeMap k = none) :
    ∀ p ∈ buildPopulations expected, p.popId ≠ k ++ "_1" := by
  intro p hp heq
  obtain ⟨k2, c2, cd, dp, hmem, hk2, rfl⟩ := buildPopulations_members expected p hp
  have hkk : k2 = k := string_append_cancel_right heq
  rw [hkk] at hk2
  simp [hk] at hk2

/-- C5: the population list of a synthesized MeasureReport contains exactly
one id/code/count element for each supplied population key that belongs to
the closed eight-name enumeration of population_code_map, carrying the
supplied count, and supplied keys outside the enumeration produce no
population element and no error (the loop silently skips them and the
transform is total). -/
theorem measure_report_population_silent_drop
    (g : Generator) (mrId : String) (expected : List (String × Int))
    (hnd : (expected.map Prod.fst).Nodup) :
    ((addMeasureReport g mrId (some expected)).1.bundle.entry.getLast?.map
        (fun e => e.resource.population) = some (buildPopulations expected)) ∧
    (∀ k c cd dp, (k, c) ∈ expected → populationCodeMap k = some (cd, dp) →
        (buildPopulations expected).countP (fun p => p.popId == k ++ "_1") = 1 ∧
        ({ popId := k ++ "_1", code := cd, display := dp, count := c }
          : Population) ∈ buildPopulations expected) ∧
    (∀ k, populationCodeMap k = none →
        ∀ p ∈ buildPopulations expected, p.popId ≠ k ++ "_1") ∧
    (∀ p ∈ buildPopulations expected, ∃ k c cd dp, (k, c) ∈ expected ∧
        populationCodeMap k = some (cd, dp) ∧
        p = { popId := k ++ "_1", code := cd, display := dp, count := c }) := by
  refine ⟨?_, ?_, ?_, ?_⟩
  · simp [addMeasureReport, addEntry, List.getLast?_concat]
  · intro k c cd dp hmem hk
    refine ⟨countP_buildPopulations_of_mem k c cd dp hk expected hnd hmem, ?_⟩
    unfold buildPopulations
    exact List.mem_filterMap.mpr ⟨(k, c), hmem, by simp [hk]⟩
  · exact buildPopulations_no_unknown_keys expected
  · exact buildPopulations_members expected

/-- The expected-population mapping from the spec's example scenario: one
known key and one unknown key. -/
def samplePopulations : List (String × Int) :=
  [("initialPopulation", 1), ("bogusKey", 5)]

theorem measure_report_population_silent_drop_witness :
    ((samplePopulations.map Prod.fst).Nodup) ∧
    (((addMeasureReport sampleGenerator ("m1")
          (some samplePopulations)).1.bundle.entry.getLast?.map
        (fun e => e.resource.population) = some (buildPopulations samplePopulations)) ∧
     (∀ k c cd dp, (k, c) ∈ samplePopulations →
        populationCodeMap k = some (cd, dp) →
        (buildPopulations samplePopulations).countP
            (fun p => p.popId == k ++ "_1") = 1 ∧
        ({ popId := k ++ "_1", code := cd, display := dp, count := c }
          : Population) ∈ buildPopulations samplePopulations) ∧
     (∀ k, populationCodeMap k = none →
        ∀ p ∈ buildPopulations samplePopulations, p.popId ≠ k ++ "_1") ∧
     (∀ p ∈ buildPopulations samplePopulations, ∃ k c cd dp,
        (k, c) ∈ samplePopulations ∧ populationCodeMap k = some (cd, dp) ∧
        p = { popId := k ++ "_1", code := cd, display := dp, count := c })) :=
  ⟨by decide,
   measure_report_population_silent_drop sampleGenerator ("m1") samplePopulations
     (by decide)⟩

end FhirTestUtils
